import Mathlib

/-!
Shallow embedding of the toolforge-jobs-framework-emailer event pipeline
(src/emailer/events.py, src/emailer/compose.py, src/emailer/send.py).

Python mutation is modelled by explicit state passing: each operation that
mutates an object returns the post-call state together with an optional
raised error.  Python exceptions (KeyError, IndexError,
JobEventNotRelevant) are modelled by the `WatchErr` type.
-/

/-- Errors that can be raised while handling one raw record.
`keyError` models a Python KeyError (an expected dict key absent),
`indexError` models a Python IndexError (subscript on an empty list),
`notRelevant` models the JobEventNotRelevant exception carrying a
human-readable reason. -/
inductive WatchErr where
  | keyError (k : String)
  | indexError
  | notRelevant (reason : String)
deriving DecidableEq

/-- Python enum JobEmailsConfig from events.py. -/
inductive JobEmailsConfig where
  | NONE
  | ONFAILURE
  | ONFINISH
  | ALL
deriving DecidableEq

/-- Python `JobEmailsConfig.__str__`: the lowercase member name. -/
def JobEmailsConfig.str : JobEmailsConfig → String
  | .NONE => "none"
  | .ONFAILURE => "onfailure"
  | .ONFINISH => "onfinish"
  | .ALL => "all"

/-- Python enum JobType from events.py. -/
inductive JobType where
  | UNKNOWN
  | NORMAL
  | CRONJOB
  | CONTINUOUS
deriving DecidableEq

/-- Python enum ContainerState from events.py. -/
inductive ContainerState where
  | UNKNOWN
  | RUNNING
  | TERMINATED
  | WAITING
deriving DecidableEq

/-- Python `ContainerState.__str__`: the lowercase member name. -/
def ContainerState.str : ContainerState → String
  | .UNKNOWN => "unknown"
  | .RUNNING => "running"
  | .TERMINATED => "terminated"
  | .WAITING => "waiting"

/-- The `running` sub-state of a k8s container status
(fields read by events.py: `startedAt`). -/
structure K8sRunningState where
  startedAt : Option String
deriving DecidableEq

/-- The `terminated` sub-state of a k8s container status
(fields read by events.py: `startedAt`, `finishedAt`, `exitCode`,
`reason`, `message`). -/
structure K8sTerminatedState where
  startedAt : Option String
  finishedAt : Option String
  exitCode : Option Int
  reason : Option String
  message : Option String
deriving DecidableEq

/-- The `waiting` sub-state of a k8s container status
(fields read by events.py: `reason`, `message`). -/
structure K8sWaitingState where
  reason : Option String
  message : Option String
deriving DecidableEq

/-- The `state` dict of a k8s container status: the three optional
sub-states, read with `.get(..., None)` in the source. -/
structure K8sState where
  running : Option K8sRunningState
  terminated : Option K8sTerminatedState
  waiting : Option K8sWaitingState
deriving DecidableEq

/-- One entry of `containerStatuses`.  The source subscripts it with
`["state"]`, which can raise KeyError, hence the Option. -/
structure K8sContainerStatus where
  state : Option K8sState
deriving DecidableEq

/-- Model of `event["metadata"]` as read by the source.  Fields accessed with
`[...]` (KeyError possible when absent) are Options; `deletion_timestamp`
is read with `.get(..., None)` and is an Option in the record itself.
Labels are a string-keyed dict, modelled as an association list. -/
structure PodMetadata where
  name : Option String
  nspace : Option String
  labels : Option (List (String × String))
  deletion_timestamp : Option String
deriving DecidableEq

/-- Model of `event["status"]` as read by the source.  `phase` is accessed with
`["phase"]` (KeyError possible); `containerStatuses` with `.get(..., None)`.
A list entry may itself be None (`statuses[0] is not None` in the source). -/
structure PodStatus where
  phase : Option String
  containerStatuses : Option (List (Option K8sContainerStatus))
deriving DecidableEq

/-- A raw k8s pod event dictionary, restricted to the keys the emailer
reads.  `metadata` and `status` are accessed with `[...]` in the source. -/
structure RawEvent where
  metadata : Option PodMetadata
  status : Option PodStatus
deriving DecidableEq

/-- Python `d[k]`: the value, or KeyError. -/
def getKey (o : Option α) (k : String) : Except WatchErr α :=
  match o with
  | some v => Except.ok v
  | none => Except.error (WatchErr.keyError k)

/-- Lookup in a label dict (first binding of a key wins, as in a dict). -/
def lookupLabel (labels : List (String × String)) (k : String) : Option String :=
  (labels.find? (fun p => p.1 = k)).map (fun p => p.2)

/-- Python `labels.get(k, d)`. -/
def getLabelD (labels : List (String × String)) (k d : String) : String :=
  (lookupLabel labels k).getD d

/-- Transcription of `JobEmailsConfig.from_event`, applied to the already-fetched label
dict (`event["metadata"]["labels"]` in the source). -/
def JobEmailsConfig.from_labels (labels : List (String × String)) : JobEmailsConfig :=
  let c := getLabelD labels "jobs.toolforge.org/emails" "none"
  if c = "onfailure" then JobEmailsConfig.ONFAILURE
  else if c = "onfinish" then JobEmailsConfig.ONFINISH
  else if c = "all" then JobEmailsConfig.ALL
  else JobEmailsConfig.NONE

/-- Transcription of `JobType.from_event`, applied to the already-fetched label dict
(`event["metadata"]["labels"]` in the source). -/
def JobType.from_labels (labels : List (String × String)) : JobType :=
  let t := getLabelD labels "app.kubernetes.io/component" "none"
  if t = "jobs" then JobType.NORMAL
  else if t = "cronjobs" then JobType.CRONJOB
  else if t = "deployments" then JobType.CONTINUOUS
  else JobType.UNKNOWN

/-- Dataclass JobEvent from events.py.  The fields marked
`field(compare=False)` in the source are `start_timestamp`,
`stop_timestamp`, `reason`, `message` and `original_event`.
`container_state` is declared `Optional[ContainerState]` with default
UNKNOWN in the source, but every construction site sets it to a concrete
member, so it is modelled as a plain `ContainerState`. -/
structure JobEvent where
  podname : Option String
  phase : Option String
  container_state : ContainerState
  exit_code : Option Int
  start_timestamp : Option String
  stop_timestamp : Option String
  reason : Option String
  message : Option String
  original_event : RawEvent
deriving DecidableEq

/-- The generated dataclass `__eq__` of JobEvent: compares exactly the
fields not marked `compare=False`, i.e. pod name, phase, container run
state and exit code.  This is the deduplication equality used by
`new_event in self.events`. -/
def JobEvent.dedupEq (a b : JobEvent) : Bool :=
  decide (a.podname = b.podname) &&
  decide (a.phase = b.phase) &&
  decide (a.container_state = b.container_state) &&
  decide (a.exit_code = b.exit_code)

/-- Transcription of `JobEvent.from_event`: builds a JobEvent from a raw k8s event dict.
Transcribed from events.py lines 107-163; KeyError on a missing
subscripted key, IndexError on `statuses[0]` when the containerStatuses
list is present but empty. -/
def JobEvent.from_event (event : RawEvent) : Except WatchErr JobEvent := do
  let md ← getKey event.metadata "metadata"
  let podname ← getKey md.name "name"
  let st ← getKey event.status "status"
  let phase ← getKey st.phase "phase"
  -- statuses = event["status"].get("containerStatuses", None)
  -- if statuses is not None and statuses[0] is not None: ...
  let subStates ← (match st.containerStatuses with
    | some [] => Except.error WatchErr.indexError
    | some (some cs :: _) => do
        let s ← getKey cs.state "state"
        Except.ok (s.running, s.terminated, s.waiting)
    | some (none :: _) =>
        Except.ok ((none : Option K8sRunningState), (none : Option K8sTerminatedState),
          (none : Option K8sWaitingState))
    | none =>
        Except.ok ((none : Option K8sRunningState), (none : Option K8sTerminatedState),
          (none : Option K8sWaitingState)))
  let (running_state, terminated_state, waiting_state) := subStates
  match running_state with
  | some r =>
      Except.ok { podname := some podname, phase := some phase,
                  container_state := ContainerState.RUNNING,
                  exit_code := none,
                  start_timestamp := r.startedAt,
                  stop_timestamp := none, reason := none, message := none,
                  original_event := event }
  | none =>
  match terminated_state with
  | some t =>
      Except.ok { podname := some podname, phase := some phase,
                  container_state := ContainerState.TERMINATED,
                  exit_code := t.exitCode,
                  start_timestamp := t.startedAt,
                  stop_timestamp := t.finishedAt,
                  reason := t.reason, message := t.message,
                  original_event := event }
  | none =>
  match waiting_state with
  | some w =>
      Except.ok { podname := some podname, phase := some phase,
                  container_state := ContainerState.WAITING,
                  exit_code := none,
                  start_timestamp := none, stop_timestamp := none,
                  reason := w.reason, message := w.message,
                  original_event := event }
  | none =>
      Except.ok { podname := some podname, phase := some phase,
                  container_state := ContainerState.UNKNOWN,
                  exit_code := none,
                  start_timestamp := none, stop_timestamp := none,
                  reason := none, message := none,
                  original_event := event }

/-- Python truthiness of an optional string (None and "" are falsy). -/
def optStrTruthy : Option String → Bool
  | some s => s ≠ ""
  | none => false

/-- Python truthiness of an optional int (None and 0 are falsy). -/
def optIntTruthy : Option Int → Bool
  | some n => n ≠ 0
  | none => false

/-- Python `JobEvent.__repr__` from events.py lines 165-193 (used in the final
relevance-rejection reason). -/
def JobEvent.reprStr (e : JobEvent) : String :=
  let s := ""
  let s := if optStrTruthy e.podname then
    s ++ "Pod '" ++ e.podname.getD "" ++ "'. " else s
  let s := if optStrTruthy e.phase then
    s ++ "Phase: '" ++ (e.phase.getD "").toLower ++ "'. " else s
  -- container_state is always a truthy enum member here
  let s := s ++ "Container state: '" ++ e.container_state.str ++ "'. "
  let s := if optStrTruthy e.start_timestamp then
    s ++ "Start timestamp " ++ e.start_timestamp.getD "" ++ ". " else s
  let s := if optStrTruthy e.stop_timestamp then
    s ++ "Finish timestamp " ++ e.stop_timestamp.getD "" ++ ". " else s
  let s := if optIntTruthy e.exit_code then
    s ++ "Exit code was '" ++ toString (e.exit_code.getD 0) ++ "'. " else s
  let s := if optStrTruthy e.reason then
    s ++ "With reason '" ++ e.reason.getD "" ++ "'. " else s
  let s := if optStrTruthy e.message then
    s ++ "With message: '" ++ e.message.getD "" ++ "'. " else s
  s

/-- Dataclass Job from events.py: a collection of events for one
workload.  Identity for lookup is (name, type, emailsconfig). -/
structure Job where
  name : String
  type : JobType
  emailsconfig : JobEmailsConfig
  events : List JobEvent
deriving DecidableEq

/-- Transcription of `Job._relevance_test` from events.py lines 209-245, transcribed in
order with first match winning.  Returns `ok ()` when the event is worth
storing; `error reason` models raising JobEventNotRelevant(reason). -/
def Job.relevanceTest (j : Job) (new_event : JobEvent) : Except String Unit :=
  if j.emailsconfig = JobEmailsConfig.NONE then
    Except.error ("job emails config is " ++ j.emailsconfig.str)
  else if j.events.any (fun e => JobEvent.dedupEq new_event e) then
    Except.error "we already have a similar event (duplicated)"
  else if new_event.container_state = ContainerState.UNKNOWN ∧
      new_event.phase = some "Pending" then
    Except.error "this event has no meaningful information"
  else if j.emailsconfig = JobEmailsConfig.ALL then
    Except.ok ()
  else if j.emailsconfig = JobEmailsConfig.ONFINISH ∧
      new_event.container_state = ContainerState.TERMINATED then
    Except.ok ()
  else if j.emailsconfig = JobEmailsConfig.ONFAILURE ∧
      new_event.container_state = ContainerState.TERMINATED ∧
      new_event.exit_code ≠ some 0 then
    Except.ok ()
  else
    Except.error ("found no reason to track this event: " ++ j.name ++ " "
      ++ new_event.reprStr)

/-- Transcription of `Job.add_event` from events.py lines 247-251, state-passing form:
returns the job state after the call and the raised error, if any.
The only mutation in the source (`self.events.append`) happens after
classification and the relevance test both succeed, so on an error the
returned state is the unchanged input state. -/
def Job.add_eventS (j : Job) (event : RawEvent) : Job × Option WatchErr :=
  match JobEvent.from_event event with
  | Except.error e => (j, some e)
  | Except.ok new_event =>
    match j.relevanceTest new_event with
    | Except.error r => (j, some (WatchErr.notRelevant r))
    | Except.ok () => ({ j with events := j.events ++ [new_event] }, none)

/-- Dataclass UserJobs from events.py: all job events of one user
(the tenant aggregate). -/
structure UserJobs where
  username : String
  jobs : List Job
deriving DecidableEq

/-- The label reads done by `UserJobs._get_or_create` (events.py lines
265-269): job name (subscripted, KeyError possible), job type and
emails config. -/
def UserJobs.jobIdentity (event : RawEvent) :
    Except WatchErr (String × JobType × JobEmailsConfig) := do
  let md ← getKey event.metadata "metadata"
  let labels ← getKey md.labels "labels"
  let jobname ← getKey (lookupLabel labels "app.kubernetes.io/name")
    "app.kubernetes.io/name"
  Except.ok (jobname, JobType.from_labels labels, JobEmailsConfig.from_labels labels)

/-- Transcription of `UserJobs.add_event` from events.py lines 278-285, state-passing
form, with `_get_or_create` (lines 265-276) inlined: looks up an
existing job by the (name, type, emailsconfig) triple, otherwise starts
from a fresh one; the fresh job is appended to `self.jobs` only when its
own `add_event` did not raise (in the source the append is guarded by
`if job not in self.jobs`, which for a fresh job is exactly this:
every stored job differs from it in the identity triple). -/
def UserJobs.add_eventS (u : UserJobs) (event : RawEvent) : UserJobs × Option WatchErr :=
  match UserJobs.jobIdentity event with
  | Except.error e => (u, some e)
  | Except.ok (jobname, jobtype, jobemailsconfig) =>
    match u.jobs.findIdx? (fun j => j.name = jobname ∧ j.type = jobtype ∧
        j.emailsconfig = jobemailsconfig) with
    | some i =>
        -- existing job: mutated in place by the source
        match (u.jobs.getD i (Job.mk jobname jobtype jobemailsconfig [])).add_eventS event with
        | (j', none) => ({ u with jobs := u.jobs.set i j' }, none)
        | (_, some e) => (u, some e)
    | none =>
        match (Job.mk jobname jobtype jobemailsconfig []).add_eventS event with
        | (j', none) => ({ u with jobs := u.jobs ++ [j'] }, none)
        | (_, some e) => (u, some e)

/-- Dataclass Cache from events.py: the process-wide event cache,
an ordered list of per-user aggregates. -/
structure Cache where
  cache : List UserJobs
deriving DecidableEq

/-- The username label read by `Cache.add_event` (events.py line 305):
`event["metadata"]["labels"]["app.kubernetes.io/created-by"]`. -/
def Cache.eventUsername (event : RawEvent) : Except WatchErr String := do
  let md ← getKey event.metadata "metadata"
  let labels ← getKey md.labels "labels"
  getKey (lookupLabel labels "app.kubernetes.io/created-by")
    "app.kubernetes.io/created-by"

/-- Transcription of `Cache.add_event` from events.py lines 303-311, state-passing form,
with `_get_or_create` (lines 294-301) inlined: looks up an existing
aggregate by username, otherwise starts from a fresh one; the fresh
aggregate is appended only when its own `add_event` did not raise
(source guard: `if userjobs not in self.cache`). -/
def Cache.add_eventS (c : Cache) (event : RawEvent) : Cache × Option WatchErr :=
  match Cache.eventUsername event with
  | Except.error e => (c, some e)
  | Except.ok username =>
    match c.cache.findIdx? (fun u => u.username = username) with
    | some i =>
        match (c.cache.getD i (UserJobs.mk username [])).add_eventS event with
        | (u', none) => ({ c with cache := c.cache.set i u' }, none)
        | (_, some e) => (c, some e)
    | none =>
        match (UserJobs.mk username []).add_eventS event with
        | (u', none) => ({ c with cache := c.cache ++ [u'] }, none)
        | (_, some e) => (c, some e)

/-- Transcription of `Cache.flush` from events.py lines 313-316. -/
def Cache.flush (_c : Cache) : Cache := Cache.mk []

/-- Removal of the first occurrence of an aggregate from a list
(helper for the spec-modelled `Cache.delete`). -/
def eraseFirstAggregate : List UserJobs → UserJobs → List UserJobs
  | [], _ => []
  | v :: rest, u => if v = u then rest else v :: eraseFirstAggregate rest u

/-- Modelled from the spec: `Cache.delete(tenantAggregate)` is called by
the repository's tests (test_cache.py) but the method itself is not
present in src/emailer/events.py.  Per the spec (section 4.4) it
"removes one tenant's aggregate from the cache (used for selective
consumption)": the first occurrence of the given aggregate is removed,
everything else is kept in order. -/
def Cache.delete (c : Cache) (userjobs : UserJobs) : Cache :=
  Cache.mk (eraseFirstAggregate c.cache userjobs)

/-- Python `str.startswith`: string prefix test (defined over the
character list so it is fully executable by the kernel). -/
def strStartsWith (s p : String) : Bool := p.data.isPrefixOf s.data

/-- Transcription of `event_early_filter` from events.py lines 319-362: cheap label-only
admission check run before any caching, rejecting with
JobEventNotRelevant (here `WatchErr.notRelevant`) in source order. -/
def event_early_filter (event : RawEvent) (event_type : String) : Except WatchErr Unit := do
  let md ← getKey event.metadata "metadata"
  let _name ← getKey md.name "name"
  let nspace ← getKey md.nspace "namespace"
  if ¬ strStartsWith nspace "tool-" then
    throw (WatchErr.notRelevant ("not interested in in namespace '" ++ nspace ++ "'"))
  let labels ← getKey md.labels "labels"
  if getLabelD labels "toolforge" "" ≠ "tool" then
    throw (WatchErr.notRelevant "not related to a toolforge tool")
  if getLabelD labels "app.kubernetes.io/managed-by" "" ≠ "toolforge-jobs-framework" then
    throw (WatchErr.notRelevant "not managed by toolforge-jobs-framework")
  if getLabelD labels "app.kubernetes.io/component" "" ∉
      ["jobs", "cronjobs", "deployments"] then
    throw (WatchErr.notRelevant "not created by a known component")
  if event_type ≠ "MODIFIED" then
    throw (WatchErr.notRelevant ("not interested in this type " ++ event_type))
  if md.deletion_timestamp ≠ none then
    throw (WatchErr.notRelevant "object being deleted")
  let st ← getKey event.status "status"
  let phase ← getKey st.phase "phase"
  if phase ∉ ["Pending", "Running", "Succeeded", "Failed"] then
    throw (WatchErr.notRelevant ("pod phase not relevant: " ++ phase))
  if getLabelD labels "jobs.toolforge.org/emails" "none" = "none" then
    throw (WatchErr.notRelevant "user configuration requested no emails")

/-- Outcome of handling one delivered record inside `task_watch_pods`. -/
inductive HandleOutcome where
  | processed
  | droppedKeyError (k : String)
  | ignoredNotRelevant (reason : String)
  | crashed (e : WatchErr)
deriving DecidableEq

/-- The per-record body of `task_watch_pods` (events.py lines 388-400):
`event_early_filter` then `cache.add_event` inside a try block that
catches KeyError (structural error: logged with the raw payload and the
record dropped) and JobEventNotRelevant (logged and ignored); any other
exception escapes and terminates the watch task (`crashed`). -/
def handleRecord (cache : Cache) (event : RawEvent) (event_type : String) :
    Cache × HandleOutcome :=
  match event_early_filter event event_type with
  | Except.error (WatchErr.keyError k) => (cache, HandleOutcome.droppedKeyError k)
  | Except.error (WatchErr.notRelevant r) => (cache, HandleOutcome.ignoredNotRelevant r)
  | Except.error e => (cache, HandleOutcome.crashed e)
  | Except.ok () =>
    match cache.add_eventS event with
    | (c', none) => (c', HandleOutcome.processed)
    | (c', some (WatchErr.keyError k)) => (c', HandleOutcome.droppedKeyError k)
    | (c', some (WatchErr.notRelevant r)) => (c', HandleOutcome.ignoredNotRelevant r)
    | (c', some e) => (c', HandleOutcome.crashed e)

/-! ## Compose stage (src/emailer/compose.py) -/

/-- An outbound message as produced by `compose_email`:
(address, subject, body). -/
abbrev Email : Type := String × String × String

/-- Python `d[k]` on a string-keyed dict modelled as an association
list (first binding wins). -/
def dictGet (d : List (String × α)) (k : String) : Option α :=
  (d.find? (fun p => p.1 = k)).map (fun p => p.2)

/-- Python `del d[k]`: removes the (first) binding of `k`. -/
def dictDel (d : List (String × α)) (k : String) : List (String × α) :=
  match d with
  | [] => []
  | (k', v) :: rest => if k' = k then rest else (k', v) :: dictDel rest k

/-- Transcription of `compose_email` from compose.py lines 24-54.  `addrPre` and
`addrDomain` are the values of CFG_DICT keys "email_to_prefix" and
"email_to_domain"; `jobs` is the per-user dict mapping a job name to the
list of its event message strings. -/
def compose_email (addrPre addrDomain : String) (user : String)
    (jobs : List (String × List String)) : Email :=
  let jobcount := jobs.length
  let address := addrPre ++ "." ++ user ++ "@" ++ addrDomain
  let subject := "[Toolforge] notification about " ++ toString jobcount ++ " jobs"
  let body := "We wanted to notify you about the activity of some jobs in Toolforge.\n"
  let body := jobs.foldl (fun body jb =>
    let body := body ++ "\n* Job '" ++ jb.1 ++ "' had " ++ toString jb.2.length
      ++ " events:\n"
    jb.2.foldl (fun body ev => body ++ "  -- " ++ ev ++ "\n") body) body
  let body := body ++ "\n\n"
  let body := body ++ "If you requested 'filelog' for any of the jobs mentioned above, you may find "
  let body := body ++ "additional information about what happened in the associated log files. "
  let body := body ++ "Check them from Toolforge bastions as usual.\n"
  let body := body ++ "\n"
  let body := body ++ "You are receiving this email because:\n"
  let body := body ++ " 1) when the job was created, it was requested to send email notfications\n"
  let body := body ++ " 2) you are listed as tool maintainer for this tool\n"
  let body := body ++ "\n"
  let body := body ++ "Find help and more information in wikitech: https://wikitech.wikimedia.org/\n"
  let body := body ++ "\n"
  let body := body ++ "Thanks for your contributions to the Wikimedia movement.\n"
  (address, subject, body)

/-- The loop body of one wake of `task_compose_emails` (compose.py lines
61-66): `for user in list(emailevents): emailq.put(compose_email(user,
emailevents[user])); del emailevents[user]`.  `keys` is the key snapshot
`list(emailevents)` taken at the start of the cycle.  Returns `none`
when a key lookup fails (a Python KeyError, impossible for a genuine
dict whose keys are unique). -/
def composeCycleGo (addrPre addrDomain : String) :
    List String → List (String × List (String × List String)) → List Email →
    Option (List (String × List (String × List String)) × List Email)
  | [], emailevents, emailq => some (emailevents, emailq)
  | user :: rest, emailevents, emailq =>
    match dictGet emailevents user with
    | none => none
    | some jobs =>
        composeCycleGo addrPre addrDomain rest (dictDel emailevents user)
          (emailq ++ [compose_email addrPre addrDomain user jobs])

/-- One full wake of `task_compose_emails`: snapshot the keys, then run
the loop. -/
def composeCycle (addrPre addrDomain : String)
    (emailevents : List (String × List (String × List String)))
    (emailq : List Email) :
    Option (List (String × List (String × List String)) × List Email) :=
  composeCycleGo addrPre addrDomain (emailevents.map Prod.fst) emailevents emailq

/-! ## Dispatch stage (src/emailer/send.py) -/

/-- One wake of `task_send_emails` (send.py lines 55-75), starting with
dispatch counter `sent` and queue `q`; `maxn` is
`int(cfg.CFG_DICT["task_send_emails_max"])`.  Returns (messages handed
to the transport in order, remaining queue, counter after the cycle).
A cycle ends either when the queue is observed empty (counter reset to
0, then sleep) or when the counter reaches `maxn` (counter reset to 0,
then sleep). -/
def sendCycle (maxn : Nat) : Nat → List Email → List Email × List Email × Nat
  | _sent, [] => ([], [], 0)
  | sent, e :: rest =>
    if sent + 1 ≥ maxn then ([e], rest, 0)
    else
      let r := sendCycle maxn (sent + 1) rest
      (e :: r.1, r.2.1, r.2.2)

/-! ## Spec-side relevance decision and sample records -/

/-- The relevance decision exactly as the spec words it (section 4.3):
evaluated in order with first match winning.  Used only to compare the
source's `Job._relevance_test` against the spec. -/
def relevanceSpecDecision (policy : JobEmailsConfig) (stored : List JobEvent)
    (e : JobEvent) : Bool :=
  if policy = JobEmailsConfig.NONE then false
  else if stored.any (fun old => JobEvent.dedupEq e old) then false
  else if e.container_state = ContainerState.UNKNOWN ∧ e.phase = some "Pending" then false
  else if policy = JobEmailsConfig.ALL then true
  else if policy = JobEmailsConfig.ONFINISH ∧
      e.container_state = ContainerState.TERMINATED then true
  else if policy = JobEmailsConfig.ONFAILURE ∧
      e.container_state = ContainerState.TERMINATED ∧
      e.exit_code ≠ some 0 then true
  else false

/-- Offering a list of raw records to one workload in order, keeping the
workload state after each offer (rejected records leave it unchanged). -/
def offerSeq (j : Job) (evs : List RawEvent) : Job :=
  evs.foldl (fun j ev => (j.add_eventS ev).1) j

/-- A full toolforge label set, as the jobs framework sets it. -/
def mkLabels (account comp jobname emails : String) : List (String × String) :=
  [("app.kubernetes.io/managed-by", "toolforge-jobs-framework"),
   ("app.kubernetes.io/created-by", account),
   ("app.kubernetes.io/component", comp),
   ("app.kubernetes.io/name", jobname),
   ("jobs.toolforge.org/emails", emails),
   ("toolforge", "tool")]

/-- A raw pod record with the given namespace, pod name, labels, phase
and container statuses, and no deletion timestamp. -/
def mkRaw (nspace podname : String) (labels : List (String × String))
    (phase : String) (statuses : Option (List (Option K8sContainerStatus))) :
    RawEvent :=
  RawEvent.mk (some (PodMetadata.mk (some podname) (some nspace) (some labels) none))
    (some (PodStatus.mk (some phase) statuses))

/-- A container status in the `waiting` sub-state. -/
def waitingStatus (r m : String) : K8sContainerStatus :=
  K8sContainerStatus.mk (some (K8sState.mk none none
    (some (K8sWaitingState.mk (some r) (some m)))))

/-- A container status in the `running` sub-state. -/
def runningStatus (start : String) : K8sContainerStatus :=
  K8sContainerStatus.mk (some (K8sState.mk (some (K8sRunningState.mk (some start)))
    none none))

/-- A container status in the `terminated` sub-state. -/
def terminatedStatus (start stop : String) (ec : Option Int)
    (r m : Option String) : K8sContainerStatus :=
  K8sContainerStatus.mk (some (K8sState.mk none
    (some (K8sTerminatedState.mk (some start) (some stop) ec r m)) none))

/-- C3 scenario, record 1: phase Pending, container waiting. -/
def c3Pending : RawEvent :=
  mkRaw "tool-mytool" "fake-pod" (mkLabels "mytool" "jobs" "myjob" "all")
    "Pending" (some [some (waitingStatus "ContainerCreating" "starting")])

/-- C3 scenario, record 2: phase Running, container running. -/
def c3Running : RawEvent :=
  mkRaw "tool-mytool" "fake-pod" (mkLabels "mytool" "jobs" "myjob" "all")
    "Running" (some [some (runningStatus "t0")])

/-- C3 scenario, record 3: phase Succeeded, container terminated with
exit code 0. -/
def c3Finished : RawEvent :=
  mkRaw "tool-mytool" "fake-pod" (mkLabels "mytool" "jobs" "myjob" "all")
    "Succeeded" (some [some (terminatedStatus "t0" "t1" (some 0) none none)])

/-- The C3 three-record sequence, in order. -/
def c3Seq : List RawEvent := [c3Pending, c3Running, c3Finished]

/-- A record whose containerStatuses list is present but empty
(zero container statuses). -/
def emptyStatusesRec : RawEvent :=
  mkRaw "tool-x" "pod-x" (mkLabels "x" "jobs" "jx" "all") "Pending" (some [])

/-- A record passing the early filter whose labels lack the
`app.kubernetes.io/created-by` key (structural error while caching). -/
def missingUserRec : RawEvent :=
  mkRaw "tool-mytool" "pod-1"
    [("toolforge", "tool"),
     ("app.kubernetes.io/managed-by", "toolforge-jobs-framework"),
     ("app.kubernetes.io/component", "jobs"),
     ("app.kubernetes.io/name", "myjob"),
     ("jobs.toolforge.org/emails", "all")]
    "Running" (some [some (runningStatus "t0")])

/-- A well-formed record whose emails label is "none" (its workload gets
policy NONE, so caching it is rejected by the relevance test). -/
def policyNoneRec : RawEvent :=
  mkRaw "tool-t" "pod-2" (mkLabels "t" "jobs" "j1" "none")
    "Running" (some [some (runningStatus "t0")])

/-- A record whose terminated sub-state has no exitCode key. -/
def noExitCodeRec : RawEvent :=
  mkRaw "tool-w" "pod-w" (mkLabels "w" "jobs" "wjob" "onfailure")
    "Failed"
    (some [some (K8sContainerStatus.mk (some (K8sState.mk none
      (some (K8sTerminatedState.mk (some "s0") (some "s1") none
        (some "Error") none)) none)))])

/-- An empty raw record (used as a throwaway back-reference). -/
def emptyRaw : RawEvent := RawEvent.mk none none

/-- A sample classified event for witnesses. -/
def sampleEvent : JobEvent :=
  JobEvent.mk (some "p") (some "Running") ContainerState.RUNNING none
    none none none none emptyRaw

/-! ## Helper lemmas -/

instance {ε α : Type} [DecidableEq ε] [DecidableEq α] : DecidableEq (Except ε α) := fun a b =>
  match a, b with
  | Except.error x, Except.error y =>
    if h : x = y then Decidable.isTrue (congrArg Except.error h)
    else Decidable.isFalse (fun hc => h (Except.error.inj hc))
  | Except.ok x, Except.ok y =>
    if h : x = y then Decidable.isTrue (congrArg Except.ok h)
    else Decidable.isFalse (fun hc => h (Except.ok.inj hc))
  | Except.error _, Except.ok _ => Decidable.isFalse (fun hc => Except.noConfusion hc)
  | Except.ok _, Except.error _ => Decidable.isFalse (fun hc => Except.noConfusion hc)

/-- Lemma: `Job.add_event` either succeeds or leaves the job unchanged. -/
theorem job_add_error_keeps_state (j : Job) (ev : RawEvent) :
    (j.add_eventS ev).2 = none ∨ (j.add_eventS ev).1 = j := by
  unfold Job.add_eventS
  rcases JobEvent.from_event ev with e | ne
  · right; rfl
  · rcases h : j.relevanceTest ne with r | u
    · simp [h]
    · cases u; simp [h]

/-- Lemma: `UserJobs.add_event` either succeeds or leaves the aggregate
unchanged. -/
theorem userjobs_add_error_keeps_state (u : UserJobs) (ev : RawEvent) :
    (u.add_eventS ev).2 = none ∨ (u.add_eventS ev).1 = u := by
  unfold UserJobs.add_eventS
  split
  · right; rfl
  · split
    · split
      · left; rfl
      · right; rfl
    · split
      · left; rfl
      · right; rfl

/-- Lemma: `Cache.add_event` either succeeds or leaves the cache unchanged. -/
theorem cache_add_error_keeps_state (c : Cache) (ev : RawEvent) :
    (c.add_eventS ev).2 = none ∨ (c.add_eventS ev).1 = c := by
  unfold Cache.add_eventS
  split
  · right; rfl
  · split
    · split
      · left; rfl
      · right; rfl
    · split
      · left; rfl
      · right; rfl

/-! ## Claim theorems -/

/-- C2: two classified events are duplicates under the cache's
deduplication equality iff pod name, phase, container run state and
exit code are all equal; the statement quantifies over all events, so
the remaining five fields (timestamps, reason, message, raw
back-reference) never influence the equality. -/
theorem dedup_equality_iff (e1 e2 : JobEvent) :
    JobEvent.dedupEq e1 e2 = true ↔
      (e1.podname = e2.podname ∧ e1.phase = e2.phase ∧
       e1.container_state = e2.container_state ∧
       e1.exit_code = e2.exit_code) := by
  simp [JobEvent.dedupEq, and_assoc]

/-- C1: the relevance test accepts an event iff the spec's ordered
decision sequence does; every rejection is a not-relevant condition
carrying a reason (never a hard failure); and the duplicate and
no-information checks fire, in order, before any policy acceptance. -/
theorem relevance_test_spec (j : Job) (e : JobEvent) :
    ((j.relevanceTest e = Except.ok ()) ↔
      relevanceSpecDecision j.emailsconfig j.events e = true) ∧
    (j.relevanceTest e = Except.ok () ∨ ∃ r, j.relevanceTest e = Except.error r) ∧
    (j.emailsconfig = JobEmailsConfig.NONE →
      j.relevanceTest e = Except.error "job emails config is none") ∧
    (j.emailsconfig ≠ JobEmailsConfig.NONE →
      j.events.any (fun old => JobEvent.dedupEq e old) = true →
      j.relevanceTest e = Except.error "we already have a similar event (duplicated)") ∧
    (j.emailsconfig ≠ JobEmailsConfig.NONE →
      j.events.any (fun old => JobEvent.dedupEq e old) = false →
      e.container_state = ContainerState.UNKNOWN → e.phase = some "Pending" →
      j.relevanceTest e = Except.error "this event has no meaningful information") := by
  refine ⟨?_, ?_, ?_, ?_, ?_⟩
  · unfold Job.relevanceTest relevanceSpecDecision
    split_ifs <;> simp_all
  · rcases h : j.relevanceTest e with r | u
    · right; exact ⟨r, rfl⟩
    · cases u; left; rfl
  · intro h
    simp [Job.relevanceTest, h, JobEmailsConfig.str]
  · intro h1 h2
    simp [Job.relevanceTest, h1, h2]
  · intro h1 h2 h3 h4
    simp [Job.relevanceTest, h1, h2, h3, h4]

/-- C1 witness: a workload with policy NONE rejects a sample event with
the expected reason. -/
theorem relevance_test_spec_witness :
    Job.relevanceTest (Job.mk "wjob" JobType.NORMAL JobEmailsConfig.NONE []) sampleEvent =
      Except.error "job emails config is none" :=
  (relevance_test_spec _ _).2.2.1 rfl

/-- C4: if adding a raw record to the cache raises, the cache is left
exactly as it was before the call: no event is appended and no newly
created aggregate becomes reachable. -/
theorem cache_add_event_rejection_preserves_cache (c : Cache) (ev : RawEvent)
    (e : WatchErr) (h : (Cache.add_eventS c ev).2 = some e) :
    (Cache.add_eventS c ev).1 = c := by
  rcases cache_add_error_keeps_state c ev with h' | h'
  · rw [h'] at h; cases h
  · exact h'

/-- C4 witness: adding a policy-NONE record to an empty cache is
rejected by the relevance test and the cache stays empty. -/
theorem cache_add_event_rejection_witness :
    (Cache.add_eventS (Cache.mk []) policyNoneRec).2 =
      some (WatchErr.notRelevant "job emails config is none") ∧
    (Cache.add_eventS (Cache.mk []) policyNoneRec).1 = Cache.mk [] :=
  ⟨by decide, cache_add_event_rejection_preserves_cache _ _
    (WatchErr.notRelevant "job emails config is none") (by decide)⟩

/-- C9: a structural classification error (KeyError) raised while
classifying or caching an admitted record is caught by the watch
stage's per-record handling: the record is dropped with the cache
unchanged, and no KeyError ever escapes as a crash of the watch
stage. -/
theorem watch_stage_catches_structural_errors (c : Cache) (ev : RawEvent)
    (t : String) (k : String)
    (hf : event_early_filter ev t = Except.ok ())
    (he : (Cache.add_eventS c ev).2 = some (WatchErr.keyError k)) :
    handleRecord c ev t = (c, HandleOutcome.droppedKeyError k) ∧
    (∀ c2 ev2 t2 k2,
      (handleRecord c2 ev2 t2).2 ≠ HandleOutcome.crashed (WatchErr.keyError k2)) := by
  constructor
  · unfold handleRecord
    rw [hf]
    have h' : (Cache.add_eventS c ev).1 = c := by
      rcases cache_add_error_keeps_state c ev with h' | h'
      · rw [h'] at he; cases he
      · exact h'
    rcases hpair : Cache.add_eventS c ev with ⟨c', oe⟩
    rw [hpair] at he h'
    simp only at he h'
    subst h'
    rw [he]
  · intro c2 ev2 t2 k2
    unfold handleRecord
    rcases hf2 : event_early_filter ev2 t2 with e | u
    · cases e <;> simp
    · cases u
      rcases hadd : Cache.add_eventS c2 ev2 with ⟨c', oe⟩
      rcases oe with _ | e
      · simp
      · cases e <;> simp

/-- C9 witness: a record passing the early filter but lacking the
created-by label is dropped (with the reported key) and the cache is
unchanged. -/
theorem watch_stage_catches_structural_errors_witness :
    event_early_filter missingUserRec "MODIFIED" = Except.ok () ∧
    (Cache.add_eventS (Cache.mk []) missingUserRec).2 =
      some (WatchErr.keyError "app.kubernetes.io/created-by") ∧
    handleRecord (Cache.mk []) missingUserRec "MODIFIED" =
      (Cache.mk [], HandleOutcome.droppedKeyError "app.kubernetes.io/created-by") :=
  ⟨by decide, by decide,
    (watch_stage_catches_structural_errors _ _ _ _ (by decide) (by decide)).1⟩

/-- C10: for a workload with policy ONFAILURE, a non-duplicate new event
with run state TERMINATED and an absent exit code (None) is accepted by
the relevance test and appended to the workload's events: a missing exit
code counts as a failure, not as success. -/
theorem onfailure_missing_exit_code_retained (j : Job) (ev : RawEvent) (e : JobEvent)
    (hcfg : j.emailsconfig = JobEmailsConfig.ONFAILURE)
    (hfe : JobEvent.from_event ev = Except.ok e)
    (hterm : e.container_state = ContainerState.TERMINATED)
    (hec : e.exit_code = none)
    (hdup : j.events.any (fun old => JobEvent.dedupEq e old) = false) :
    j.relevanceTest e = Except.ok () ∧
    j.add_eventS ev = ({ j with events := j.events ++ [e] }, none) := by
  have hrt : j.relevanceTest e = Except.ok () := by
    simp [Job.relevanceTest, hcfg, hdup, hterm, hec]
  exact ⟨hrt, by simp [Job.add_eventS, hfe, hrt]⟩

/-- C10 witness: a terminated record whose terminated sub-state has no
exitCode key is retained by an ONFAILURE workload. -/
theorem onfailure_missing_exit_code_retained_witness :
    (Job.mk "wjob" JobType.NORMAL JobEmailsConfig.ONFAILURE []).add_eventS noExitCodeRec =
      ({ Job.mk "wjob" JobType.NORMAL JobEmailsConfig.ONFAILURE [] with
         events := [JobEvent.mk (some "pod-w") (some "Failed")
           ContainerState.TERMINATED none (some "s0") (some "s1")
           (some "Error") none noExitCodeRec] }, none) :=
  (onfailure_missing_exit_code_retained
    (Job.mk "wjob" JobType.NORMAL JobEmailsConfig.ONFAILURE []) noExitCodeRec
    (JobEvent.mk (some "pod-w") (some "Failed") ContainerState.TERMINATED none
      (some "s0") (some "s1") (some "Error") none noExitCodeRec)
    rfl (by decide) rfl rfl rfl).2

/-- Splitting lemma for the spec-modelled erase-first-occurrence. -/
theorem eraseFirstAggregate_split (l : List UserJobs) (u : UserJobs) (h : u ∈ l) :
    ∃ l1 l2, l = l1 ++ u :: l2 ∧ u ∉ l1 ∧
      eraseFirstAggregate l u = l1 ++ l2 := by
  induction l with
  | nil => cases h
  | cons v rest ih =>
    by_cases hv : v = u
    · subst hv
      exact ⟨[], rest, rfl, by simp, by simp [eraseFirstAggregate]⟩
    · have hu : u ∈ rest := by
        rcases List.mem_cons.mp h with h1 | h1
        · exact absurd h1.symm hv
        · exact h1
      rcases ih hu with ⟨l1, l2, heq, hnotin, herase⟩
      refine ⟨v :: l1, l2, by rw [heq]; rfl, ?_, ?_⟩
      · intro hc
        rcases List.mem_cons.mp hc with h1 | h1
        · exact hv h1.symm
        · exact hnotin h1
      · simp [eraseFirstAggregate, hv, herase]

/-- C5: deleting a tenant aggregate present in the cache removes exactly
that one aggregate, leaving every other aggregate present, unchanged and
in order. -/
theorem cache_delete_removes_exactly_one (c : Cache) (u : UserJobs)
    (h : u ∈ c.cache) :
    ∃ l1 l2, c.cache = l1 ++ u :: l2 ∧ u ∉ l1 ∧
      (c.delete u).cache = l1 ++ l2 :=
  eraseFirstAggregate_split c.cache u h

/-- C5 witness: deleting one of two concrete aggregates. -/
theorem cache_delete_removes_exactly_one_witness :
    UserJobs.mk "user-a" [] ∈ (Cache.mk [UserJobs.mk "user-a" [], UserJobs.mk "user-b" []]).cache ∧
    ∃ l1 l2,
      (Cache.mk [UserJobs.mk "user-a" [], UserJobs.mk "user-b" []]).cache =
        l1 ++ UserJobs.mk "user-a" [] :: l2 ∧
      UserJobs.mk "user-a" [] ∉ l1 ∧
      ((Cache.mk [UserJobs.mk "user-a" [], UserJobs.mk "user-b" []]).delete
        (UserJobs.mk "user-a" [])).cache = l1 ++ l2 :=
  ⟨by decide, cache_delete_removes_exactly_one _ _ (by decide)⟩

/-- One dispatch cycle with `sent < maxn` pops exactly the first
`maxn - sent` messages and resets the counter. -/
theorem sendCycle_take_drop (maxn : Nat) (q : List Email) : ∀ (sent : Nat), sent < maxn →
    sendCycle maxn sent q = (q.take (maxn - sent), q.drop (maxn - sent), 0) := by
  induction q with
  | nil => intro sent _; simp [sendCycle]
  | cons e rest ih =>
    intro sent h
    unfold sendCycle
    by_cases hge : sent + 1 ≥ maxn
    · have hm : maxn - sent = 1 := by omega
      simp [hge, hm]
    · have hm : maxn - sent = (maxn - (sent + 1)) + 1 := by omega
      have ih' := ih (sent + 1) (by omega)
      simp [hge, ih', hm]

/-- The dispatch counter is 0 after every cycle (in particular it is
reset whenever the queue is observed empty). -/
theorem sendCycle_counter_zero (maxn : Nat) (q : List Email) :
    ∀ sent, (sendCycle maxn sent q).2.2 = 0 := by
  induction q with
  | nil => intro sent; simp [sendCycle]
  | cons e rest ih =>
    intro sent
    unfold sendCycle
    by_cases hge : sent + 1 ≥ maxn <;> simp [hge, ih]

/-- C7: with per-cycle maximum 10 and 25 queued messages, one dispatch
cycle pops exactly the first 10 messages in FIFO order, leaves the
remaining 15 queued in their original order, and ends with the counter
reset; the counter is also reset whenever the queue is observed
empty. -/
theorem dispatch_cycle_max10 (q : List Email) (h : q.length = 25) :
    sendCycle 10 0 q = (q.take 10, q.drop 10, 0) ∧
    (q.take 10).length = 10 ∧ (q.drop 10).length = 15 ∧
    q.take 10 ++ q.drop 10 = q ∧
    (∀ (s : Nat), sendCycle 10 s [] = ([], [], 0)) := by
  refine ⟨by simpa using sendCycle_take_drop 10 q 0 (by omega), ?_, ?_,
    List.take_append_drop _ _, fun s => by simp [sendCycle]⟩
  · simp [h]
  · simp [h]

/-- A concrete queue of 25 distinct messages. -/
def wQueue : List Email := (List.range 25).map (fun i => (toString i, "subject", "body"))

/-- C7 witness: the scenario at a concrete 25-message queue. -/
theorem dispatch_cycle_max10_witness :
    wQueue.length = 25 ∧
    sendCycle 10 0 wQueue = (wQueue.take 10, wQueue.drop 10, 0) :=
  ⟨by decide, (dispatch_cycle_max10 wQueue (by decide)).1⟩

/-- Running the compose loop over the key snapshot of a dict with
pairwise-distinct keys: one message per tenant, in order, and the dict
is emptied. -/
theorem composeCycleGo_spec (ap ad : String) :
    ∀ (events : List (String × List (String × List String))) (q : List Email),
    (events.map Prod.fst).Nodup →
    composeCycleGo ap ad (events.map Prod.fst) events q =
      some ([], q ++ events.map (fun p => compose_email ap ad p.1 p.2)) := by
  intro events
  induction events with
  | nil => intro q _; simp [composeCycleGo]
  | cons p rest ih =>
    intro q hnd
    obtain ⟨u, jobs⟩ := p
    rw [List.map_cons, List.nodup_cons] at hnd
    have hget : dictGet ((u, jobs) :: rest) u = some jobs := by
      simp [dictGet, List.find?]
    have hdel : dictDel ((u, jobs) :: rest) u = rest := by
      simp [dictDel]
    rw [List.map_cons]
    unfold composeCycleGo
    rw [hget, hdel]
    dsimp only
    rw [ih (q ++ [compose_email ap ad u jobs]) hnd.2]
    simp

/-- C6: one compose cycle appends exactly one outbound message per
tenant present at the start of the cycle (in cache order) to the FIFO
queue, and empties the whole dict; when the cycle produces no messages
the dict is left unchanged.  (Stated for a dict with pairwise-distinct
keys, which is what a Python dict guarantees.) -/
theorem compose_cycle_one_message_per_tenant (ap ad : String)
    (events : List (String × List (String × List String))) (q : List Email)
    (hnd : (events.map Prod.fst).Nodup) :
    composeCycle ap ad events q =
      some ([], q ++ events.map (fun p => compose_email ap ad p.1 p.2)) ∧
    (events.map (fun p => compose_email ap ad p.1 p.2) = [] →
      composeCycle ap ad events q = some (events, q)) := by
  have h := composeCycleGo_spec ap ad events q hnd
  refine ⟨h, fun hz => ?_⟩
  have hev : events = [] := List.map_eq_nil_iff.mp hz
  subst hev
  simpa using h

/-- C6 witness: a concrete two-tenant dict (one of them with no jobs)
yields exactly two messages and an empty dict. -/
theorem compose_cycle_one_message_per_tenant_witness :
    (([("usera", [("job1", ["ev one", "ev two"])]), ("userb", [])].map
        (Prod.fst (β := List (String × List String)))).Nodup) ∧
    composeCycle "toolsbeta" "toolsbeta.wmflabs.org"
        [("usera", [("job1", ["ev one", "ev two"])]), ("userb", [])] [] =
      some ([],
        [("usera", [("job1", ["ev one", "ev two"])]), ("userb", [])].map
          (fun p => compose_email "toolsbeta" "toolsbeta.wmflabs.org" p.1 p.2)) :=
  ⟨by decide, by
    simpa using (compose_cycle_one_message_per_tenant "toolsbeta" "toolsbeta.wmflabs.org"
      [("usera", [("job1", ["ev one", "ev two"])]), ("userb", [])] [] (by decide)).1⟩

/-- C3 counterexample: under policy ALL the three-record sequence
(Pending/waiting, Running/running, Succeeded/terminated exit 0) retains
3 events, not 2: the Pending record carries run state WAITING, so the
no-information check (which requires run state UNKNOWN) does not drop
it.  This matches the repository's own test, which asserts 3. -/
theorem c3_all_policy_does_not_retain_two :
    ¬ ((offerSeq (Job.mk "myjob" JobType.NORMAL JobEmailsConfig.ALL []) c3Seq).events.length
      = 2) := by decide

/-- C3 (amended): the three-record sequence offered in order to an
initially empty workload retains exactly 3 events under policy ALL
(the Pending/waiting record is retained, since only UNKNOWN-state
Pending records are dropped as carrying no information), exactly 0
under ONFAILURE, and exactly 1 under ONFINISH. -/
theorem c3_retention_counts :
    (offerSeq (Job.mk "myjob" JobType.NORMAL JobEmailsConfig.ALL []) c3Seq).events.length
      = 3 ∧
    (offerSeq (Job.mk "myjob" JobType.NORMAL JobEmailsConfig.ONFAILURE []) c3Seq).events.length
      = 0 ∧
    (offerSeq (Job.mk "myjob" JobType.NORMAL JobEmailsConfig.ONFINISH []) c3Seq).events.length
      = 1 := by
  refine ⟨by decide, by decide, by decide⟩

/-- The classification content of an event: every field except the raw
back-reference. -/
def JobEvent.classifTuple (e : JobEvent) :=
  (e.podname, e.phase, e.container_state, e.exit_code,
   e.start_timestamp, e.stop_timestamp, e.reason, e.message)

/-- C8 counterexample: a record with zero container statuses — a
present but empty containerStatuses list — does not yield an event with
run state UNKNOWN: classification stops with an index error. -/
theorem c8_empty_status_list_is_index_error :
    JobEvent.from_event emptyStatusesRec = Except.error WatchErr.indexError := by
  decide

/-- A raw record with complete metadata, the given phase and the given
containerStatuses value (helper for stating classification facts). -/
def mkStatusRec (nm : String) (nsp : Option String)
    (lbl : Option (List (String × String))) (dts : Option String) (p : String)
    (sts : Option (List (Option K8sContainerStatus))) : RawEvent :=
  RawEvent.mk (some (PodMetadata.mk (some nm) nsp lbl dts))
    (some (PodStatus.mk (some p) sts))

/-- C8 (amended): classification reads only the first container-status
entry (the classification content is independent of the tail of the
list); an absent containerStatuses field — and likewise a None first
entry — yields run state UNKNOWN with no further run-state fields; a
present but empty containerStatuses list is an index error rather than
an UNKNOWN event; and when several sub-states are present on the first
entry, running takes precedence, then terminated, then waiting, else
UNKNOWN. -/
theorem classify_first_status_only_and_precedence :
    (∀ (m : Option PodMetadata) (ph : Option String)
        (c : Option K8sContainerStatus)
        (rest rest' : List (Option K8sContainerStatus)),
      Except.map JobEvent.classifTuple
          (JobEvent.from_event (RawEvent.mk m (some (PodStatus.mk ph (some (c :: rest)))))) =
        Except.map JobEvent.classifTuple
          (JobEvent.from_event (RawEvent.mk m (some (PodStatus.mk ph (some (c :: rest'))))))) ∧
    (∀ (nm : String) (nsp : Option String) (lbl : Option (List (String × String)))
        (dts : Option String) (p : String),
      JobEvent.from_event (mkStatusRec nm nsp lbl dts p none) =
        Except.ok (JobEvent.mk (some nm) (some p) ContainerState.UNKNOWN none
          none none none none (mkStatusRec nm nsp lbl dts p none))) ∧
    (∀ (nm : String) (nsp : Option String) (lbl : Option (List (String × String)))
        (dts : Option String) (p : String) (rest : List (Option K8sContainerStatus)),
      JobEvent.from_event (mkStatusRec nm nsp lbl dts p (some (none :: rest))) =
        Except.ok (JobEvent.mk (some nm) (some p) ContainerState.UNKNOWN none
          none none none none (mkStatusRec nm nsp lbl dts p (some (none :: rest))))) ∧
    (∀ (nm : String) (nsp : Option String) (lbl : Option (List (String × String)))
        (dts : Option String) (p : String),
      JobEvent.from_event (mkStatusRec nm nsp lbl dts p (some [])) =
        Except.error WatchErr.indexError) ∧
    (∀ (nm : String) (nsp : Option String) (lbl : Option (List (String × String)))
        (dts : Option String) (p : String)
        (r : Option K8sRunningState) (t : Option K8sTerminatedState)
        (w : Option K8sWaitingState) (rest : List (Option K8sContainerStatus)),
      JobEvent.from_event (mkStatusRec nm nsp lbl dts p
          (some (some (K8sContainerStatus.mk (some (K8sState.mk r t w))) :: rest))) =
        Except.ok (
          let ev := mkStatusRec nm nsp lbl dts p
            (some (some (K8sContainerStatus.mk (some (K8sState.mk r t w))) :: rest))
          match r, t, w with
          | some rs, _, _ =>
              JobEvent.mk (some nm) (some p) ContainerState.RUNNING none
                rs.startedAt none none none ev
          | none, some ts, _ =>
              JobEvent.mk (some nm) (some p) ContainerState.TERMINATED ts.exitCode
                ts.startedAt ts.finishedAt ts.reason ts.message ev
          | none, none, some ws =>
              JobEvent.mk (some nm) (some p) ContainerState.WAITING none
                none none ws.reason ws.message ev
          | none, none, none =>
              JobEvent.mk (some nm) (some p) ContainerState.UNKNOWN none
                none none none none ev)) := by
  refine ⟨?_, ?_, ?_, ?_, ?_⟩
  · intro m ph c rest rest'
    rcases m with _ | ⟨nm, nsp, lbl, dts⟩
    · rfl
    rcases nm with _ | nm
    · rfl
    rcases ph with _ | p
    · rfl
    rcases c with _ | ⟨st⟩
    · rfl
    rcases st with _ | ⟨r, t, w⟩
    · rfl
    rcases r with _ | r
    · rcases t with _ | t
      · rcases w with _ | w
        · rfl
        · rfl
      · rfl
    · rfl
  · intro nm nsp lbl dts p
    rfl
  · intro nm nsp lbl dts p rest
    rfl
  · intro nm nsp lbl dts p
    rfl
  · intro nm nsp lbl dts p r t w rest
    rcases r with _ | r
    · rcases t with _ | t
      · rcases w with _ | w
        · rfl
        · rfl
      · rfl
    · rfl
